import Mathlib

/-!
Verification of the multi-agent virtual-doorman orchestration core.

The definitions below are shallow embeddings of the Python source files:
`src/e.py` (single-agent doorman with per-purpose field collection),
`src/c.py` and `src/d.py` (multi-agent handoff demos), and `src/a.py`
(conversation transcript logger).  Stateful handlers are embedded as
explicit state-passing functions; Python `Optional[str]` becomes
`Option String`; Python truthiness of an optional string (`if not x`)
is the `truthy` test below; fallible replies become `Option String`.
-/

/-- Python truthiness of an `Optional[str]` value: `None` and the empty
string are falsy, every other string is truthy (`if not x:` in source). -/
def truthy : Option String → Bool
  | none => false
  | some s => s != ""

/-- Session state of the single-agent doorman, `src/e.py` lines 34-39:
the six mutable attributes of `VirtualDoorman`. -/
structure Doorman where
  current_purpose : Option String
  resident_name : Option String
  apartment_number : Option String
  visitor_name : Option String
  reason : Option String
  maintenance_issue : Option String
deriving DecidableEq, Repr

/-- `VirtualDoorman._reset_session_data`, `src/e.py` lines 135-140:
clears the five collected fields, leaving `current_purpose` alone. -/
def reset_session_data (d : Doorman) : Doorman :=
  { d with resident_name := none, apartment_number := none,
           visitor_name := none, reason := none, maintenance_issue := none }

/-- `VirtualDoorman._reset_resident_data`, `src/e.py` lines 142-144. -/
def reset_resident_data (d : Doorman) : Doorman :=
  { d with resident_name := none, apartment_number := none }

/-- `VirtualDoorman._check_resident_db`, `src/e.py` lines 44-47: the
source is a simulated stub that always validates ("Replace with actual
DB check"); kept as `true` so that theorems about the stub use it, while
handlers take the check as a parameter (it is an injected external
action provider per the architecture). -/
def check_resident_db (_name _apartment : String) : Bool :=
  true

/-- `VirtualDoorman.handle_purpose`, `src/e.py` lines 57-73.  Sets the
purpose, resets the collected fields, and returns the per-purpose
prompt; an unknown purpose is rejected with a re-prompt. -/
def handle_purpose (d : Doorman) (purpose : String) : Doorman × Option String :=
  if !(purpose == "visitor" || purpose == "delivery" ||
       purpose == "maintenance" || purpose == "rental") then
    (d, some "Invalid purpose. Please choose from visitor/delivery/maintenance/rental")
  else
    let d1 := reset_session_data { d with current_purpose := some purpose }
    if purpose == "visitor" then
      (d1, some "Visiting a resident. Please provide resident\x27s FULL NAME")
    else if purpose == "delivery" then
      (d1, some "Making a delivery. Please provide resident\x27s FULL NAME")
    else if purpose == "maintenance" then
      (d1, some "Reporting maintenance. Please describe the issue")
    else
      (d1, some "Rental inquiry. Please wait while I check vacancies...")

/-- `VirtualDoorman.collect_resident_info`, `src/e.py` lines 75-97.
A missing name or apartment yields a re-prompt reply; a failed database
check resets both resident fields; otherwise the fields are recorded and
the reply depends on the current purpose (the Python function falls off
the end, i.e. returns `None`, when the purpose is neither visitor nor
delivery).  The database check is the injected provider `check`. -/
def collect_resident_info (check : String → String → Bool) (d : Doorman)
    (name apartment : Option String) : Doorman × Option String :=
  if truthy name = false then
    (d, some "Please provide resident\x27s FULL NAME")
  else if truthy apartment = false then
    ({ d with resident_name := name }, some "Please provide apartment NUMBER")
  else if check (name.getD "") (apartment.getD "") = false then
    (reset_resident_data d,
      some "Resident not found. Please check name and apartment number")
  else
    let d1 := { d with resident_name := name, apartment_number := apartment }
    if d1.current_purpose == some "visitor" then
      (d1, some "Resident verified. Please provide VISITOR NAME and REASON for visit")
    else if d1.current_purpose == some "delivery" then
      (d1, some "Delivery approved. Door opened. Have a nice day!")
    else
      (d1, none)

/-- `VirtualDoorman.handle_visitor_details`, `src/e.py` lines 99-112.
Missing arguments yield re-prompt replies; with both present the
resident is notified (SMS side effect, state unchanged). -/
def handle_visitor_details (d : Doorman) (visitor_name reason : Option String) :
    Doorman × Option String :=
  if truthy visitor_name = false then
    (d, some "Please provide VISITOR NAME")
  else if truthy reason = false then
    ({ d with visitor_name := visitor_name }, some "Please provide REASON for visit")
  else
    (d, some "Resident notified. They\x27ll be with you shortly. Thank you!")

/-- **C9.** For every call of `handle_purpose` with a purpose among
visitor/delivery/maintenance/rental, afterwards `current_purpose` equals
that purpose and all five previously collected fields are `None`:
data collected under an earlier purpose never survives a purpose change. -/
theorem handle_purpose_resets (d : Doorman) (p : String)
    (h : p = "visitor" ∨ p = "delivery" ∨ p = "maintenance" ∨ p = "rental") :
    (handle_purpose d p).1.current_purpose = some p ∧
    (handle_purpose d p).1.resident_name = none ∧
    (handle_purpose d p).1.apartment_number = none ∧
    (handle_purpose d p).1.visitor_name = none ∧
    (handle_purpose d p).1.reason = none ∧
    (handle_purpose d p).1.maintenance_issue = none := by
  rcases h with h | h | h | h <;> subst h <;>
    simp [handle_purpose, reset_session_data]

/-- Witness for C9 at a concrete state with every field previously set. -/
theorem handle_purpose_resets_witness :
    (handle_purpose
      ⟨some "visitor", some "John Doe", some "A101", some "Bob", some "tour", some "leak"⟩
      "delivery").1.current_purpose = some "delivery" ∧
    (handle_purpose
      ⟨some "visitor", some "John Doe", some "A101", some "Bob", some "tour", some "leak"⟩
      "delivery").1.resident_name = none ∧
    (handle_purpose
      ⟨some "visitor", some "John Doe", some "A101", some "Bob", some "tour", some "leak"⟩
      "delivery").1.apartment_number = none ∧
    (handle_purpose
      ⟨some "visitor", some "John Doe", some "A101", some "Bob", some "tour", some "leak"⟩
      "delivery").1.visitor_name = none ∧
    (handle_purpose
      ⟨some "visitor", some "John Doe", some "A101", some "Bob", some "tour", some "leak"⟩
      "delivery").1.reason = none ∧
    (handle_purpose
      ⟨some "visitor", some "John Doe", some "A101", some "Bob", some "tour", some "leak"⟩
      "delivery").1.maintenance_issue = none :=
  handle_purpose_resets _ "delivery" (Or.inr (Or.inl rfl))

/-- **C10.** A `collect_resident_info` call with both name and apartment
provided, where the resident database check fails, leaves both
`resident_name` and `apartment_number` as `None` afterwards, whatever
values they held before; a call with a name but no apartment records the
name and re-prompts for the apartment. -/
theorem collect_resident_info_reset_on_fail (check : String → String → Bool)
    (d : Doorman) (n a : String) :
    (n ≠ "" → a ≠ "" → check n a = false →
      collect_resident_info check d (some n) (some a) =
        (reset_resident_data d,
          some "Resident not found. Please check name and apartment number") ∧
      (collect_resident_info check d (some n) (some a)).1.resident_name = none ∧
      (collect_resident_info check d (some n) (some a)).1.apartment_number = none) ∧
    (n ≠ "" →
      collect_resident_info check d (some n) none =
        ({ d with resident_name := some n }, some "Please provide apartment NUMBER")) := by
  constructor
  · intro hn ha hc
    have : collect_resident_info check d (some n) (some a) =
        (reset_resident_data d,
          some "Resident not found. Please check name and apartment number") := by
      simp [collect_resident_info, truthy, hn, ha, hc]
    exact ⟨this, by rw [this]; rfl, by rw [this]; rfl⟩
  · intro hn
    simp [collect_resident_info, truthy, hn]

/-- Witness for C10: a failing database check on a state whose resident
fields are already set wipes both; a name-only call records the name. -/
theorem collect_resident_info_reset_on_fail_witness :
    (collect_resident_info (fun _ _ => false)
        ⟨some "visitor", some "Old Name", some "B202", none, none, none⟩
        (some "Jane Smith") (some "C303")).1.resident_name = none ∧
    (collect_resident_info (fun _ _ => false)
        ⟨some "visitor", some "Old Name", some "B202", none, none, none⟩
        (some "Jane Smith") (some "C303")).1.apartment_number = none ∧
    collect_resident_info (fun _ _ => false)
        ⟨some "visitor", some "Old Name", some "B202", none, none, none⟩
        (some "Jane Smith") none =
      (⟨some "visitor", some "Jane Smith", some "B202", none, none, none⟩,
        some "Please provide apartment NUMBER") := by
  refine ⟨?_, ?_, ?_⟩
  · exact ((collect_resident_info_reset_on_fail (fun _ _ => false) _ "Jane Smith" "C303").1
      (by decide) (by decide) rfl).2.1
  · exact ((collect_resident_info_reset_on_fail (fun _ _ => false) _ "Jane Smith" "C303").1
      (by decide) (by decide) rfl).2.2
  · exact (collect_resident_info_reset_on_fail (fun _ _ => false) _ "Jane Smith" "C303").2
      (by decide)

/-- **C5.** A tool call with a missing required argument never raises:
`collect_resident_info` and `handle_visitor_details` are total and, on a
missing argument, return a reply asking the user for the missing value;
once the fields fill in, the same tool call proceeds and records them. -/
theorem missing_arg_reprompt (check : String → String → Bool) (d : Doorman)
    (name apartment visitor reason : Option String) :
    (truthy name = false →
      collect_resident_info check d name apartment =
        (d, some "Please provide resident\x27s FULL NAME")) ∧
    (truthy name = true → truthy apartment = false →
      collect_resident_info check d name apartment =
        ({ d with resident_name := name }, some "Please provide apartment NUMBER")) ∧
    (truthy visitor = false →
      handle_visitor_details d visitor reason =
        (d, some "Please provide VISITOR NAME")) ∧
    (truthy visitor = true → truthy reason = false →
      handle_visitor_details d visitor reason =
        ({ d with visitor_name := visitor }, some "Please provide REASON for visit")) ∧
    (truthy name = true → truthy apartment = true →
      check (name.getD "") (apartment.getD "") = true →
      (collect_resident_info check d name apartment).1.resident_name = name ∧
      (collect_resident_info check d name apartment).1.apartment_number = apartment) := by
  refine ⟨?_, ?_, ?_, ?_, ?_⟩
  · intro h; simp [collect_resident_info, h]
  · intro h1 h2; simp [collect_resident_info, h1, h2]
  · intro h; simp [handle_visitor_details, h]
  · intro h1 h2; simp [handle_visitor_details, h1, h2]
  · intro h1 h2 hc
    have hres : collect_resident_info check d name apartment =
        (let d1 := { d with resident_name := name, apartment_number := apartment }
         if d1.current_purpose == some "visitor" then
           (d1, some "Resident verified. Please provide VISITOR NAME and REASON for visit")
         else if d1.current_purpose == some "delivery" then
           (d1, some "Delivery approved. Door opened. Have a nice day!")
         else
           (d1, none)) := by
      simp [collect_resident_info, h1, h2, hc]
    rw [hres]
    by_cases hv : d.current_purpose = some "visitor" <;>
      by_cases hd : d.current_purpose = some "delivery" <;>
        simp [hv, hd]

/-- Witness for C5 at concrete calls: a missing name, a missing
apartment, a missing visitor name, a missing reason, and the filled-in
call that finally records both fields. -/
theorem missing_arg_reprompt_witness :
    collect_resident_info check_resident_db
        ⟨some "visitor", none, none, none, none, none⟩ none none =
      (⟨some "visitor", none, none, none, none, none⟩,
        some "Please provide resident\x27s FULL NAME") ∧
    collect_resident_info check_resident_db
        ⟨some "visitor", none, none, none, none, none⟩ (some "John Doe") none =
      (⟨some "visitor", some "John Doe", none, none, none, none⟩,
        some "Please provide apartment NUMBER") ∧
    handle_visitor_details
        ⟨some "visitor", some "John Doe", some "A101", none, none, none⟩ none none =
      (⟨some "visitor", some "John Doe", some "A101", none, none, none⟩,
        some "Please provide VISITOR NAME") ∧
    handle_visitor_details
        ⟨some "visitor", some "John Doe", some "A101", none, none, none⟩
        (some "Alice") none =
      (⟨some "visitor", some "John Doe", some "A101", some "Alice", none, none⟩,
        some "Please provide REASON for visit") ∧
    (collect_resident_info check_resident_db
        ⟨some "visitor", some "John Doe", none, none, none, none⟩
        (some "John Doe") (some "A101")).1.resident_name = some "John Doe" ∧
    (collect_resident_info check_resident_db
        ⟨some "visitor", some "John Doe", none, none, none, none⟩
        (some "John Doe") (some "A101")).1.apartment_number = some "A101" := by
  refine ⟨?_, ?_, ?_, ?_, ?_, ?_⟩
  · exact (missing_arg_reprompt check_resident_db _ none none none none).1 rfl
  · exact (missing_arg_reprompt check_resident_db _ (some "John Doe") none none none).2.1
      (by decide) rfl
  · exact (missing_arg_reprompt check_resident_db _ none none none none).2.2.1 rfl
  · exact (missing_arg_reprompt check_resident_db _ none none (some "Alice") none).2.2.2.1
      (by decide) rfl
  · exact ((missing_arg_reprompt check_resident_db _ (some "John Doe") (some "A101")
      none none).2.2.2.2 (by decide) (by decide) rfl).1
  · exact ((missing_arg_reprompt check_resident_db _ (some "John Doe") (some "A101")
      none none).2.2.2.2 (by decide) (by decide) rfl).2

/-- Shared session state of the multi-agent demo, `src/c.py` lines 25-40:
the five collected fields and the `current_agent` marker (the `agents`
dictionary of live `Agent` objects is external wiring and not part of
the data model). -/
structure UserData where
  resident_name : Option String
  apartment_number : Option String
  visitor_name : Option String
  visit_reason : Option String
  maintenance_needs : Option String
  current_agent : Option String
deriving DecidableEq, Repr

/-- Python `x or 'N/A'` on an optional string: `None` and the empty
string fall back to the placeholder. -/
def pyOrNA : Option String → String
  | none => "N/A"
  | some s => if s = "" then "N/A" else s

/-- `UserData.summarize`, `src/c.py` lines 35-40: the exact f-string
digest, including its leading newline and 8-space indentation. -/
def UserData.summarize (u : UserData) : String :=
  "\n        Resident: " ++ pyOrNA u.resident_name ++ " (" ++
    pyOrNA u.apartment_number ++ ")\n        Visitor: " ++
    pyOrNA u.visitor_name ++ " - Reason: " ++ pyOrNA u.visit_reason ++
    "\n        Maintenance: " ++ pyOrNA u.maintenance_needs ++ "\n        "

/-- One registered resident of the mock database, `src/c.py` lines 16-23. -/
structure ResidentRec where
  phone : String
  valid : Bool
deriving DecidableEq, Repr

/-- `mock_db["residents"].get((name, apartment))`, `src/c.py` lines 16-23
together with the lookup on line 103: keys are pairs of optional strings
and only the two seeded residents are present. -/
def residents_get : Option String → Option String → Option ResidentRec
  | some "John Doe", some "A101" => some ⟨"+1234567890", true⟩
  | some "Jane Smith", some "B202" => some ⟨"+0987654321", true⟩
  | _, _ => none

/-- `VisitorAgent.check_resident`, `src/c.py` lines 100-110: looks the
resident up, replies with verification or failure, and performs no state
mutation (embedded as returning the unchanged state). -/
def check_resident (u : UserData) : UserData × String :=
  match residents_get u.resident_name u.apartment_number with
  | some r =>
      if r.valid then
        (u, "Resident verified. SMS sent to " ++ r.phone ++
          ". Please wait for the resident to approve your visit.")
      else
        (u, "Resident not found. Please check the information and try again.")
  | none =>
      (u, "Resident not found. Please check the information and try again.")

/-- Splits a character list at the first occurrence of `c`, removing it:
`breakAt c (xs ++ c :: ys) = (xs, ys)` whenever `c` does not occur in `xs`. -/
def breakAt (c : Char) : List Char → List Char × List Char
  | [] => ([], [])
  | x :: xs =>
    if x = c then ([], xs)
    else ((breakAt c xs).1.cons x, (breakAt c xs).2)

theorem breakAt_append (c : Char) (xs ys : List Char) (h : c ∉ xs) :
    breakAt c (xs ++ c :: ys) = (xs, ys) := by
  induction xs with
  | nil => simp [breakAt]
  | cons a as ih =>
      have ha : a ≠ c := fun e => h (e ▸ List.mem_cons_self a as)
      have hs := ih fun hm => h (List.mem_cons_of_mem a hm)
      simp [breakAt, ha, hs]

/-- Removes a fixed prefix (by length) from a character list. -/
def dropPfx (p l : List Char) : List Char :=
  l.drop p.length

theorem dropPfx_append (p l : List Char) : dropPfx p (p ++ l) = l :=
  List.drop_left p l

/-- A digest-safe character: not a newline, parenthesis, or hyphen, the
characters the digest format of `UserData.summarize` uses as delimiters. -/
def goodChar (c : Char) : Bool :=
  c != '\n' && c != '(' && c != ')' && c != '-'

/-- A string all of whose characters are digest-safe. -/
def goodStr (s : String) : Bool :=
  s.data.all goodChar

theorem goodStr_spec (s : String) (h : goodStr s = true) :
    '\n' ∉ s.data ∧ '(' ∉ s.data ∧ ')' ∉ s.data ∧ '-' ∉ s.data := by
  simp only [goodStr, List.all_eq_true, goodChar, Bool.and_eq_true, bne_iff_ne,
    ne_eq] at h
  exact ⟨fun hm => (h _ hm).1.1.1 rfl, fun hm => (h _ hm).1.1.2 rfl,
    fun hm => (h _ hm).1.2 rfl, fun hm => (h _ hm).2 rfl⟩

theorem not_mem_append_singleton {c d : Char} {l : List Char}
    (h : c ∉ l) (hne : c ≠ d) : c ∉ l ++ [d] := by
  intro hm
  rcases List.mem_append.1 hm with hm | hm
  · exact h hm
  · exact hne (List.mem_singleton.1 hm)

/-- Field extraction from the digest character stream: strips the fixed
labels of the `UserData.summarize` format and splits at its delimiter
characters, returning the five field values in order. -/
def parseChars (l : List Char) :
    List Char × List Char × List Char × List Char × List Char :=
  let l1 := dropPfx "\n        Resident: ".data l
  let p1 := breakAt '(' l1
  let p2 := breakAt ')' p1.2
  let l2 := dropPfx "\n        Visitor: ".data p2.2
  let p3 := breakAt '-' l2
  let l3 := dropPfx " Reason: ".data p3.2
  let p4 := breakAt '\n' l3
  let l4 := dropPfx "        Maintenance: ".data p4.2
  let p5 := breakAt '\n' l4
  (p1.1.dropLast, p2.1, p3.1.dropLast, p4.1, p5.1)

/-- Reconstructs a `UserData` value from a digest produced by
`UserData.summarize` (with `current_agent` unset, as that field is not
part of the digest). -/
def parseDigest (digest : String) : UserData :=
  let p := parseChars digest.data
  ⟨some ⟨p.1⟩, some ⟨p.2.1⟩, some ⟨p.2.2.1⟩, some ⟨p.2.2.2.1⟩, some ⟨p.2.2.2.2⟩, none⟩

theorem parseChars_spec (r a v re m : List Char)
    (hr : '(' ∉ r) (ha : ')' ∉ a) (hv : '-' ∉ v) (hre : '\n' ∉ re) (hm : '\n' ∉ m) :
    parseChars ("\n        Resident: ".data ++ ((r ++ [' ']) ++ ('(' ::
      (a ++ (')' :: ("\n        Visitor: ".data ++ ((v ++ [' ']) ++ ('-' ::
      (" Reason: ".data ++ (re ++ ('\n' :: ("        Maintenance: ".data ++
      (m ++ ('\n' :: "        ".data)))))))))))))) = (r, a, v, re, m) := by
  have hp1 : '(' ∉ r ++ [' '] := not_mem_append_singleton hr (by decide)
  have hp3 : '-' ∉ v ++ [' '] := not_mem_append_singleton hv (by decide)
  simp only [parseChars]
  rw [dropPfx_append, breakAt_append '(' (r ++ [' ']) _ hp1]
  dsimp only
  rw [breakAt_append ')' a _ ha]
  dsimp only
  rw [dropPfx_append, breakAt_append '-' (v ++ [' ']) _ hp3]
  dsimp only
  rw [dropPfx_append, breakAt_append '\n' re _ hre]
  dsimp only
  rw [dropPfx_append, breakAt_append '\n' m _ hm]
  simp [List.dropLast_concat]

theorem pyOrNA_some (s : String) (h : s ≠ "") : pyOrNA (some s) = s := by
  simp [pyOrNA, h]

/-- **C4 (counterexample).** No parser inverts `UserData.summarize` on
all field combinations: the states with `resident_name` unset and with
`resident_name = "N/A"` produce the same digest, so they cannot both be
reconstructed. -/
theorem summarize_roundtrip_cex :
    ¬ ∃ parse : String → UserData, ∀ u : UserData, parse u.summarize = u := by
  rintro ⟨parse, hp⟩
  have h1 := hp ⟨none, none, none, none, none, none⟩
  have h2 := hp ⟨some "N/A", none, none, none, none, none⟩
  have hs : UserData.summarize ⟨none, none, none, none, none, none⟩ =
      UserData.summarize ⟨some "N/A", none, none, none, none, none⟩ := by decide
  rw [hs, h2] at h1
  exact absurd h1 (by decide)

/-- **C4 (amended).** On states whose five data fields are all set to
nonempty values free of the digest's delimiter characters (newline,
parentheses, hyphen) and whose `current_agent` is unset, the executable
parser `parseDigest` composed with `UserData.summarize` is the identity;
`summarize` is pure by construction. -/
theorem summarize_roundtrip_restricted (rn an vn ren mn : String)
    (hrn : rn ≠ "") (hrng : goodStr rn = true)
    (han : an ≠ "") (hang : goodStr an = true)
    (hvn : vn ≠ "") (hvng : goodStr vn = true)
    (hren : ren ≠ "") (hreng : goodStr ren = true)
    (hmn : mn ≠ "") (hmng : goodStr mn = true) :
    parseDigest (UserData.summarize ⟨some rn, some an, some vn, some ren, some mn, none⟩) =
      ⟨some rn, some an, some vn, some ren, some mn, none⟩ := by
  have hd : (UserData.summarize
      ⟨some rn, some an, some vn, some ren, some mn, none⟩).data =
      "\n        Resident: ".data ++ ((rn.data ++ [' ']) ++ ('(' ::
      (an.data ++ (')' :: ("\n        Visitor: ".data ++ ((vn.data ++ [' ']) ++ ('-' ::
      (" Reason: ".data ++ (ren.data ++ ('\n' :: ("        Maintenance: ".data ++
      (mn.data ++ ('\n' :: "        ".data))))))))))))) := by
    have e1 : (" (" : String).data = [' ', '('] := rfl
    have e2 : (")\n        Visitor: " : String).data =
        ')' :: "\n        Visitor: ".data := rfl
    have e3 : (" - Reason: " : String).data = ' ' :: '-' :: " Reason: ".data := rfl
    have e4 : ("\n        Maintenance: " : String).data =
        '\n' :: "        Maintenance: ".data := rfl
    have e5 : ("\n        " : String).data = '\n' :: "        ".data := rfl
    simp only [UserData.summarize, pyOrNA_some rn hrn, pyOrNA_some an han,
      pyOrNA_some vn hvn, pyOrNA_some ren hren, pyOrNA_some mn hmn,
      String.data_append, e1, e2, e3, e4, e5]
    simp [List.append_assoc]
  unfold parseDigest
  rw [hd, parseChars_spec rn.data an.data vn.data ren.data mn.data
    (goodStr_spec rn hrng).2.1 (goodStr_spec an hang).2.2.1
    (goodStr_spec vn hvng).2.2.2 (goodStr_spec ren hreng).1 (goodStr_spec mn hmng).1]

/-- Witness for the amended C4 at a fully populated state. -/
theorem summarize_roundtrip_restricted_witness :
    parseDigest (UserData.summarize
      ⟨some "John Doe", some "A101", some "Alice", some "package drop off",
        some "leaky faucet", none⟩) =
      ⟨some "John Doe", some "A101", some "Alice", some "package drop off",
        some "leaky faucet", none⟩ :=
  summarize_roundtrip_restricted "John Doe" "A101" "Alice" "package drop off"
    "leaky faucet" (by decide) (by decide) (by decide) (by decide) (by decide)
    (by decide) (by decide) (by decide) (by decide) (by decide)

/-- **C7.** When the resident lookup fails, `check_resident` returns the
failure reply and leaves the whole session state — in particular
`current_agent` — unchanged, so no handoff bookkeeping is touched. -/
theorem check_resident_fail_frame (u : UserData)
    (h : residents_get u.resident_name u.apartment_number = none) :
    check_resident u =
      (u, "Resident not found. Please check the information and try again.") ∧
    (check_resident u).1 = u ∧
    (check_resident u).1.current_agent = u.current_agent := by
  have he : check_resident u =
      (u, "Resident not found. Please check the information and try again.") := by
    unfold check_resident
    rw [h]
  exact ⟨he, by rw [he], by rw [he]⟩

/-- Witness for C7: a visitor state naming an unregistered resident. -/
theorem check_resident_fail_frame_witness :
    check_resident ⟨some "Alice", some "Z999", none, some "package drop-off", none,
        some "visitor"⟩ =
      (⟨some "Alice", some "Z999", none, some "package drop-off", none, some "visitor"⟩,
        "Resident not found. Please check the information and try again.") ∧
    (check_resident ⟨some "Alice", some "Z999", none, some "package drop-off", none,
        some "visitor"⟩).1 =
      ⟨some "Alice", some "Z999", none, some "package drop-off", none, some "visitor"⟩ ∧
    (check_resident ⟨some "Alice", some "Z999", none, some "package drop-off", none,
        some "visitor"⟩).1.current_agent = some "visitor" :=
  check_resident_fail_frame _ (by decide)

/-- The closed set of agent identifiers registered at session start,
`src/c.py` lines 170-177 and `src/d.py` lines 200-207. -/
inductive AgentId where
  | main
  | visitor
  | delivery
  | maintenance
  | rental
deriving DecidableEq, Repr

/-- The printable name of an agent id, the dictionary key in the source. -/
def AgentId.name : AgentId → String
  | .main => "main"
  | .visitor => "visitor"
  | .delivery => "delivery"
  | .maintenance => "maintenance"
  | .rental => "rental"

/-- The handoff bookkeeping the transfer operation touches:
`current_agent` (`src/c.py` line 47, together with the session making the
returned agent current) and the previous agent (`src/d.py` line 74,
`userdata.prev_agent = current_agent`). -/
structure SessionAgents where
  current : AgentId
  prev : Option AgentId
deriving DecidableEq, Repr

/-- `BaseAgent._transfer_to_agent`, `src/c.py` lines 45-48 and
`src/d.py` lines 70-75: records the old current agent as previous, makes
the target current, and returns the transition message. -/
def transfer_to_agent (name : AgentId) (s : SessionAgents) : SessionAgents × String :=
  ({ current := name, prev := some s.current }, "Transferring to " ++ name.name ++ " agent")

/-- Runs a sequence of transfer requests from a starting session state. -/
def runTransfers (s : SessionAgents) : List AgentId → SessionAgents
  | [] => s
  | t :: ts => runTransfers (transfer_to_agent t s).1 ts

/-- The sequence of values `current_agent` takes during a run: the start
value followed by each requested target. -/
def currentsTrace (s : SessionAgents) (ts : List AgentId) : List AgentId :=
  s.current :: ts

/-- The most recent value in a history of prior `current_agent` values
that is distinct from the given current agent. -/
def mostRecentDistinctPrior (cur : AgentId) (priors : List AgentId) : Option AgentId :=
  priors.reverse.find? (fun a => a != cur)

theorem runTransfers_append (s : SessionAgents) (ts us : List AgentId) :
    runTransfers s (ts ++ us) = runTransfers (runTransfers s ts) us := by
  induction ts generalizing s with
  | nil => rfl
  | cons t ts ih => simpa [runTransfers] using ih (transfer_to_agent t s).1

theorem mostRecentDistinctPrior_trace (s : SessionAgents) (ts : List AgentId)
    (t : AgentId) (h : t ≠ (runTransfers s ts).current) :
    mostRecentDistinctPrior t (currentsTrace s ts) = some (runTransfers s ts).current := by
  induction ts generalizing s with
  | nil =>
      simp only [runTransfers] at h ⊢
      have hb : s.current != t := bne_iff_ne.2 (Ne.symm h)
      simp [mostRecentDistinctPrior, currentsTrace, List.find?, hb]
  | cons u ts ih =>
      have hrec := ih (transfer_to_agent u s).1 (by
        simpa [runTransfers] using h)
      simp only [runTransfers]
      have htr : currentsTrace s (u :: ts) =
          s.current :: currentsTrace (transfer_to_agent u s).1 ts := rfl
      rw [htr]
      simp only [mostRecentDistinctPrior, List.reverse_cons] at hrec ⊢
      rw [List.find?_append, hrec]
      rfl

/-- **C2 (counterexample).** After the run main → visitor → visitor
(a permitted self-transition), `prev` is `visitor` while the most recent
distinct prior `current_agent` is `main`, refuting the claim that
`previous_agent` always equals the most recent distinct prior
`current_agent`; the code also maintains no `HandoffRecord` log at all. -/
theorem transfer_distinct_prior_cex :
    (runTransfers ⟨AgentId.main, none⟩ [AgentId.visitor, AgentId.visitor]).prev ≠
      mostRecentDistinctPrior
        (runTransfers ⟨AgentId.main, none⟩ [AgentId.visitor, AgentId.visitor]).current
        (currentsTrace ⟨AgentId.main, none⟩ [AgentId.visitor]) := by
  decide

/-- **C2 (amended).** A transfer to target `t` sets `current_agent := t`
and `previous_agent :=` the old `current_agent` and changes nothing else
(no `HandoffRecord` exists in the code); when the transfer is not a
self-transition, `previous_agent` afterwards equals the most recent
distinct prior `current_agent`. -/
theorem transfer_effects (s : SessionAgents) (ts : List AgentId) (t : AgentId) :
    (runTransfers s (ts ++ [t])).current = t ∧
    (runTransfers s (ts ++ [t])).prev = some (runTransfers s ts).current ∧
    (t ≠ (runTransfers s ts).current →
      mostRecentDistinctPrior (runTransfers s (ts ++ [t])).current
          (currentsTrace s ts) =
        (runTransfers s (ts ++ [t])).prev) := by
  have hdone : runTransfers s (ts ++ [t]) =
      (transfer_to_agent t (runTransfers s ts)).1 := by
    rw [runTransfers_append]; rfl
  refine ⟨by rw [hdone]; rfl, by rw [hdone]; rfl, fun hne => ?_⟩
  rw [hdone]
  exact mostRecentDistinctPrior_trace s ts t hne

/-- Witness for the amended C2: a genuine (non-self) transfer from the
entry agent to the visitor agent. -/
theorem transfer_effects_witness :
    (runTransfers ⟨AgentId.main, none⟩ ([] ++ [AgentId.visitor])).current =
      AgentId.visitor ∧
    (runTransfers ⟨AgentId.main, none⟩ ([] ++ [AgentId.visitor])).prev =
      some (runTransfers ⟨AgentId.main, none⟩ []).current ∧
    mostRecentDistinctPrior
        (runTransfers ⟨AgentId.main, none⟩ ([] ++ [AgentId.visitor])).current
        (currentsTrace ⟨AgentId.main, none⟩ []) =
      (runTransfers ⟨AgentId.main, none⟩ ([] ++ [AgentId.visitor])).prev := by
  have h := transfer_effects ⟨AgentId.main, none⟩ [] AgentId.visitor
  exact ⟨h.1, h.2.1, h.2.2 (by decide)⟩

/-- Role of a plain chat message. -/
inductive ChatRole where
  | system
  | user
  | assistant
deriving DecidableEq, Repr

/-- One item of a chat context (the `llm.ChatItem` union used by
`src/d.py`): a plain message, a tool-call request, or a tool-call
result; every item has a stable identity, and the two tool halves are
linked by a shared call id. -/
inductive ChatItem where
  | message (id : Nat) (role : ChatRole) (content : String)
  | functionCall (id : Nat) (callId : Nat)
  | functionOutput (id : Nat) (callId : Nat)
deriving DecidableEq, Repr

/-- The stable identity of a chat item (`item.id` in the source). -/
def ChatItem.id : ChatItem → Nat
  | .message i _ _ => i
  | .functionCall i _ => i
  | .functionOutput i _ => i

/-- Whether an item is the tool result paired with call id `c`. -/
def isOutputFor (c : Nat) : ChatItem → Bool
  | .functionOutput _ c2 => c2 == c
  | _ => false

/-- Whether an item is the tool call paired with call id `c`. -/
def isCallFor (c : Nat) : ChatItem → Bool
  | .functionCall _ c2 => c2 == c
  | _ => false

/-- Modelled from the spec: `BaseAgent._truncate_chat_ctx`
(`src/d.py` lines 77-80) is declared with window size
`keep_last_n_messages = 6` but its body is elided in the source
("Same implementation as original restaurant example"), so the
reconciliation policy of spec section 4.4 is used: keep the last `K`
messages and, for any kept message that is one half of a tool
call/result pair whose partner falls outside the window, drop both
halves together rather than truncate asymmetrically. -/
def truncate_chat_ctx (items : List ChatItem) (K : Nat) : List ChatItem :=
  let window := items.drop (items.length - K)
  window.filter fun it =>
    match it with
    | .functionCall _ c => window.any (isOutputFor c)
    | .functionOutput _ c => window.any (isCallFor c)
    | .message _ _ _ => true

/-- Pair-or-neither check: every tool call in the list has its result in
the list and every tool result has its call. -/
def pairingOk (items : List ChatItem) : Bool :=
  items.all fun it =>
    match it with
    | .functionCall _ c => items.any (isOutputFor c)
    | .functionOutput _ c => items.any (isCallFor c)
    | .message _ _ _ => true

/-- Identity consistency: two items of the list sharing an id are the
same item (ids are stable identities). -/
def idConsistent (items : List ChatItem) : Bool :=
  items.all fun i => items.all fun j => !(i.id == j.id) || i == j

/-- The prior agent's truncated history minus the items whose identity
already occurs in the destination context, `src/d.py` lines 55-61
(`existing_ids` / list-comprehension filter). -/
def merge_prior_items (prevItems ctxItems : List ChatItem) (K : Nat) : List ChatItem :=
  let existing := ctxItems.map ChatItem.id
  (truncate_chat_ctx prevItems K).filter fun it => !(existing.contains it.id)

/-- `BaseAgent.on_enter`, `src/d.py` lines 51-68: the reconciled context
handed to the entered agent is its own context, extended with the
deduplicated truncated prior history, followed by the system message
carrying the class name and the current data digest. -/
def on_enter_ctx (prevItems ctxItems : List ChatItem) (K sysId : Nat)
    (agentName digest : String) : List ChatItem :=
  ctxItems ++ merge_prior_items prevItems ctxItems K ++
    [ChatItem.message sysId ChatRole.system
      ("You are " ++ agentName ++ ". Current data: " ++ digest)]

theorem idConsistent_spec (l : List ChatItem) (h : idConsistent l = true) :
    ∀ i ∈ l, ∀ j ∈ l, i.id = j.id → i = j := by
  intro i hi j hj hij
  simp only [idConsistent, List.all_eq_true] at h
  have := h i hi j hj
  rcases Bool.or_eq_true_iff.1 this with hb | hb
  · exact absurd (beq_iff_eq.2 hij) (by simpa using hb)
  · exact beq_iff_eq.1 hb

theorem truncate_pairing (items : List ChatItem) (K : Nat) :
    pairingOk (truncate_chat_ctx items K) = true := by
  simp only [pairingOk, List.all_eq_true]
  intro it hit
  simp only [truncate_chat_ctx] at hit ⊢
  rcases List.mem_filter.1 hit with ⟨hmem, hcond⟩
  cases it with
  | message mid mrole mcontent => rfl
  | functionCall iid cid =>
      simp only at hcond
      rcases List.any_eq_true.1 hcond with ⟨o, ho, hoc⟩
      simp only [List.any_eq_true]
      refine ⟨o, List.mem_filter.2 ⟨ho, ?_⟩, hoc⟩
      cases o with
      | message _ _ _ => simp [isOutputFor] at hoc
      | functionCall _ _ => simp [isOutputFor] at hoc
      | functionOutput jid cid2 =>
          have hc2 : cid2 = cid := by simpa [isOutputFor] using hoc
          subst hc2
          simp only [List.any_eq_true]
          exact ⟨ChatItem.functionCall iid cid2, hmem, by simp [isCallFor]⟩
  | functionOutput iid cid =>
      simp only at hcond
      rcases List.any_eq_true.1 hcond with ⟨o, ho, hoc⟩
      simp only [List.any_eq_true]
      refine ⟨o, List.mem_filter.2 ⟨ho, ?_⟩, hoc⟩
      cases o with
      | message _ _ _ => simp [isCallFor] at hoc
      | functionOutput _ _ => simp [isCallFor] at hoc
      | functionCall jid cid2 =>
          have hc2 : cid2 = cid := by simpa [isCallFor] using hoc
          subst hc2
          simp only [List.any_eq_true]
          exact ⟨ChatItem.functionOutput iid cid2, hmem, by simp [isOutputFor]⟩

theorem merge_subset (prev ctx : List ChatItem) (K : Nat) :
    ∀ it ∈ merge_prior_items prev ctx K, it ∈ truncate_chat_ctx prev K := by
  intro it hit
  exact (List.mem_filter.1 hit).1

/-- A partner found in the truncated prior suffix is, after the identity
based deduplication, present either in the suffix or (as the very same
item) in the destination context. -/
theorem merge_partner_cases (prev ctx : List ChatItem) (K : Nat)
    (hid : idConsistent (ctx ++ truncate_chat_ctx prev K) = true)
    (o : ChatItem) (ho : o ∈ truncate_chat_ctx prev K) :
    o ∈ ctx ∨ o ∈ merge_prior_items prev ctx K := by
  by_cases hdup : (ctx.map ChatItem.id).contains o.id
  · left
    rcases List.mem_map.1 (List.elem_iff.1 hdup) with ⟨x, hx, hxid⟩
    have := idConsistent_spec _ hid x (List.mem_append.2 (Or.inl hx))
      o (List.mem_append.2 (Or.inr ho)) hxid
    exact this ▸ hx
  · right
    exact List.mem_filter.2 ⟨ho, by simpa using hdup⟩

/-- **C1.** For every handoff, the reconciled context handed to the
entered agent contains no orphaned tool-call or tool-result message:
provided the destination context itself satisfies pair-or-neither and
item identities are consistent across the merged material, every tool
call in the reconciled context has its result there and vice versa —
a pair with one half outside the K-message window is dropped whole. -/
theorem reconciled_ctx_pairing (prev ctx : List ChatItem) (K sysId : Nat)
    (agentName digest : String)
    (hctx : pairingOk ctx = true)
    (hid : idConsistent (ctx ++ truncate_chat_ctx prev K) = true) :
    pairingOk (on_enter_ctx prev ctx K sysId agentName digest) = true := by
  have htr := truncate_pairing prev K
  simp only [pairingOk, List.all_eq_true] at hctx htr ⊢
  intro it hit
  simp only [on_enter_ctx] at hit ⊢
  have hsplit := List.mem_append.1 hit
  cases it with
  | message i r c => rfl
  | functionCall i c =>
      simp only [List.any_eq_true]
      rcases hsplit with hmem | hmem
      · rcases List.mem_append.1 hmem with hmem | hmem
        · rcases List.any_eq_true.1 (hctx _ hmem) with ⟨o, ho, hoc⟩
          exact ⟨o, by simp [List.mem_append, ho], hoc⟩
        · have hmemt := merge_subset prev ctx K _ hmem
          rcases List.any_eq_true.1 (htr _ hmemt) with ⟨o, ho, hoc⟩
          rcases merge_partner_cases prev ctx K hid o ho with hcase | hcase <;>
            exact ⟨o, by simp [List.mem_append, hcase], hoc⟩
      · simp at hmem
  | functionOutput i c =>
      simp only [List.any_eq_true]
      rcases hsplit with hmem | hmem
      · rcases List.mem_append.1 hmem with hmem | hmem
        · rcases List.any_eq_true.1 (hctx _ hmem) with ⟨o, ho, hoc⟩
          exact ⟨o, by simp [List.mem_append, ho], hoc⟩
        · have hmemt := merge_subset prev ctx K _ hmem
          rcases List.any_eq_true.1 (htr _ hmemt) with ⟨o, ho, hoc⟩
          rcases merge_partner_cases prev ctx K hid o ho with hcase | hcase <;>
            exact ⟨o, by simp [List.mem_append, hcase], hoc⟩
      · simp at hmem

/-- Witness for C1 with the default window K = 6: a 10-message prior
history whose tool pair sits at positions 3 and 4 (outside the kept
window) and a destination context with a complete pair of its own. -/
theorem reconciled_ctx_pairing_witness :
    pairingOk [ChatItem.message 100 ChatRole.user "hi",
      ChatItem.functionCall 101 7, ChatItem.functionOutput 102 7] = true ∧
    idConsistent ([ChatItem.message 100 ChatRole.user "hi",
      ChatItem.functionCall 101 7, ChatItem.functionOutput 102 7] ++
      truncate_chat_ctx [ChatItem.message 1 ChatRole.user "a",
        ChatItem.message 2 ChatRole.assistant "b",
        ChatItem.functionCall 3 9, ChatItem.functionOutput 4 9,
        ChatItem.message 5 ChatRole.assistant "c",
        ChatItem.message 6 ChatRole.user "d",
        ChatItem.message 7 ChatRole.assistant "e",
        ChatItem.message 8 ChatRole.user "f",
        ChatItem.message 9 ChatRole.assistant "g",
        ChatItem.message 10 ChatRole.user "h"] 6) = true ∧
    pairingOk (on_enter_ctx [ChatItem.message 1 ChatRole.user "a",
        ChatItem.message 2 ChatRole.assistant "b",
        ChatItem.functionCall 3 9, ChatItem.functionOutput 4 9,
        ChatItem.message 5 ChatRole.assistant "c",
        ChatItem.message 6 ChatRole.user "d",
        ChatItem.message 7 ChatRole.assistant "e",
        ChatItem.message 8 ChatRole.user "f",
        ChatItem.message 9 ChatRole.assistant "g",
        ChatItem.message 10 ChatRole.user "h"]
      [ChatItem.message 100 ChatRole.user "hi",
        ChatItem.functionCall 101 7, ChatItem.functionOutput 102 7]
      6 200 "VisitorAgent" "digest") = true := by
  refine ⟨by decide, by decide, ?_⟩
  exact reconciled_ctx_pairing _ _ 6 200 "VisitorAgent" "digest"
    (by decide) (by decide)

/-- **C6.** For every handoff, the portion of the reconciled context
appended from the prior agent's history contains no message whose
identity already occurs in the destination context, and the reconciled
context is exactly the destination context followed by that filtered
suffix and the fresh system digest message. -/
theorem no_duplicate_merge (prev ctx : List ChatItem) (K sysId : Nat)
    (agentName digest : String) :
    on_enter_ctx prev ctx K sysId agentName digest =
      ctx ++ merge_prior_items prev ctx K ++
        [ChatItem.message sysId ChatRole.system
          ("You are " ++ agentName ++ ". Current data: " ++ digest)] ∧
    (merge_prior_items prev ctx K).all
      (fun it => !((ctx.map ChatItem.id).contains it.id)) = true := by
  refine ⟨rfl, ?_⟩
  simp only [List.all_eq_true]
  intro it hit
  exact (List.mem_filter.1 hit).2

/-- The per-turn loop guard: `HandoffLoopError` of spec section 4.3. -/
inductive HandoffLoopError where
  | loopDetected
deriving DecidableEq, Repr

/-- Modelled from the spec: the per-turn hop counter of the Transfer
Coordinator (spec section 4.3).  The sources configure only the cap
(`max_tool_steps=5`, `src/d.py` lines 209-216 and `src/c.py` lines
177-184); the counting loop itself is not in the repository sources, so
it is taken from the spec: each handoff within the turn increments the
counter, and exceeding the cap raises `HandoffLoopError`. -/
def applyHandoffs (cap : Nat) : Nat → AgentId → List AgentId →
    Except HandoffLoopError AgentId
  | _, cur, [] => Except.ok cur
  | hops, _, t :: ts =>
      if hops + 1 > cap then Except.error HandoffLoopError.loopDetected
      else applyHandoffs cap (hops + 1) t ts

/-- Modelled from the spec: the Tool Dispatch Loop's conversion of
`HandoffLoopError` into a graceful fallback (spec sections 4.3 and 4.5):
force a transition to the entry agent and emit an apology message
instead of propagating a fault; the returned pair is the agent left
current and the reply spoken for the turn, `none` meaning the normal
reply flow. -/
def runTurnHandoffs (cap : Nat) (entry cur : AgentId) (targets : List AgentId) :
    AgentId × Option String :=
  match applyHandoffs cap 0 cur targets with
  | Except.ok a => (a, none)
  | Except.error _ =>
      (entry, some "Sorry, something went wrong while routing your request. Let me start over.")

theorem applyHandoffs_error_iff (cap : Nat) (ts : List AgentId) :
    ∀ hops cur, hops ≤ cap →
      (applyHandoffs cap hops cur ts = Except.error HandoffLoopError.loopDetected ↔
        hops + ts.length > cap) := by
  induction ts with
  | nil =>
      intro hops cur hle
      simp [applyHandoffs, Nat.not_lt.2 hle]
  | cons t ts ih =>
      intro hops cur hle
      simp only [List.length_cons]
      by_cases hcap : hops + 1 > cap
      · have hgt : hops + (ts.length + 1) > cap := by omega
        simp [applyHandoffs, hcap, hgt]
      · have hle2 : hops + 1 ≤ cap := Nat.not_lt.1 hcap
        have hih := ih (hops + 1) t hle2
        simp only [applyHandoffs, hcap, if_false]
        rw [hih]
        constructor <;> intro h <;> omega

/-- **C3.** A chain of 6 handoff requests within one user turn, with the
cap at its default 5, deterministically raises `HandoffLoopError`; the
dispatch loop converts it into a forced transition to the entry agent
with an apology reply — a total function, so the session does not crash. -/
theorem handoff_cap_fallback (entry cur : AgentId) (targets : List AgentId)
    (h : targets.length = 6) :
    applyHandoffs 5 0 cur targets = Except.error HandoffLoopError.loopDetected ∧
    runTurnHandoffs 5 entry cur targets =
      (entry, some "Sorry, something went wrong while routing your request. Let me start over.") := by
  have herr : applyHandoffs 5 0 cur targets = Except.error HandoffLoopError.loopDetected := by
    rw [applyHandoffs_error_iff 5 targets 0 cur (by omega)]
    omega
  refine ⟨herr, ?_⟩
  unfold runTurnHandoffs
  rw [herr]

/-- Witness for C3: the chain main → visitor → main → visitor → main →
visitor → main of 6 requested hops in one turn. -/
theorem handoff_cap_fallback_witness :
    [AgentId.visitor, AgentId.main, AgentId.visitor, AgentId.main,
      AgentId.visitor, AgentId.main].length = 6 ∧
    applyHandoffs 5 0 AgentId.main
        [AgentId.visitor, AgentId.main, AgentId.visitor, AgentId.main,
          AgentId.visitor, AgentId.main] =
      Except.error HandoffLoopError.loopDetected ∧
    runTurnHandoffs 5 AgentId.main AgentId.main
        [AgentId.visitor, AgentId.main, AgentId.visitor, AgentId.main,
          AgentId.visitor, AgentId.main] =
      (AgentId.main,
        some "Sorry, something went wrong while routing your request. Let me start over.") := by
  have h := handoff_cap_fallback AgentId.main AgentId.main
    [AgentId.visitor, AgentId.main, AgentId.visitor, AgentId.main,
      AgentId.visitor, AgentId.main] rfl
  exact ⟨rfl, h.1, h.2⟩

/-- The session-start record written by `ConversationLogger._ensure_header`,
`src/a.py` lines 108-116. -/
structure LogHeader where
  session_id : String
  start_time : String
deriving DecidableEq, Repr

/-- One interaction record written by `ConversationLogger.log_interaction`,
`src/a.py` lines 118-126: exactly a timestamp, a role, and a content field. -/
structure LogEntry where
  timestamp : Nat
  role : String
  content : String
deriving DecidableEq, Repr

/-- One newline-delimited record of the transcript log file. -/
inductive LogRecord where
  | header (h : LogHeader)
  | entry (e : LogEntry)
deriving DecidableEq, Repr

/-- `ConversationLogger._ensure_header`, `src/a.py` lines 106-116: on a
nonexistent file (`none`) write the header record; otherwise leave the
file as it is. -/
def ensure_header (session_id start_time : String) :
    Option (List LogRecord) → List LogRecord
  | none => [LogRecord.header ⟨session_id, start_time⟩]
  | some records => records

/-- `ConversationLogger.log_interaction`, `src/a.py` lines 118-126:
append one `{timestamp, role, content}` record. -/
def log_interaction (file : List LogRecord) (timestamp : Nat)
    (role content : String) : List LogRecord :=
  file ++ [LogRecord.entry ⟨timestamp, role, content⟩]

/-- A whole session's logging: construct the logger on a fresh file
(`ConversationLogger.__init__`) and append each interaction in order. -/
def run_logger (session_id start_time : String)
    (events : List (Nat × String × String)) : List LogRecord :=
  events.foldl (fun file e => log_interaction file e.1 e.2.1 e.2.2)
    (ensure_header session_id start_time none)

theorem run_logger_foldl (init : List LogRecord)
    (events : List (Nat × String × String)) :
    events.foldl (fun file e => log_interaction file e.1 e.2.1 e.2.2) init =
      init ++ events.map (fun e => LogRecord.entry ⟨e.1, e.2.1, e.2.2⟩) := by
  induction events generalizing init with
  | nil => simp
  | cons e es ih =>
      simp only [List.foldl_cons, List.map_cons]
      rw [ih]
      simp [log_interaction]

/-- **C8.** For every session, the transcript log is the sequence whose
first record carries the session identifier and start time and whose
subsequent records each carry exactly a timestamp, a role, and a content
field, appended in event order. -/
theorem transcript_log_shape (session_id start_time : String)
    (events : List (Nat × String × String)) :
    run_logger session_id start_time events =
      LogRecord.header ⟨session_id, start_time⟩ ::
        events.map (fun e => LogRecord.entry ⟨e.1, e.2.1, e.2.2⟩) := by
  unfold run_logger
  rw [run_logger_foldl]
  rfl
